import Mathlib

/-!
Verification of the V4L2Camera capture-device core
(src/libraries/camera/V4L2Camera.cpp) against its specification.

The C++ file is shallowly embedded below.  Byte buffers are modelled as
total functions `Nat → Nat` (index to byte value); a null pointer is
`Option.none`; the heap of live `new[]` allocations is an explicit record
so buffer-lifetime claims can be stated; android `status_t` codes are
the usual errno naturals.  Fields not present in the .cpp file itself
(the header `V4L2Camera.h` is not part of the sources) are modelled from
the specification and marked as such in their doc comments.
-/

namespace V4L2

/-- Android status code NO_ERROR (= OK = 0). -/
def NO_ERROR : Nat := 0

/-- Android status code OK, identical to NO_ERROR. -/
def OK : Nat := 0

/-- Errno EINVAL as used for status_t returns. -/
def EINVAL : Nat := 22

/-- Errno ENOMEM as used for status_t returns. -/
def ENOMEM : Nat := 12

/-- V4L2 fourcc code for the planar YVU 4:2:0 format, fourcc YV12. -/
def V4L2_PIX_FMT_YVU420 : Nat := 0x32315659

/-- V4L2 fourcc code for the planar YUV 4:2:0 format, fourcc YU12. -/
def V4L2_PIX_FMT_YUV420 : Nat := 0x32315559

/-- V4L2 fourcc code for the semiplanar NV21 format (VU interleave). -/
def V4L2_PIX_FMT_NV21 : Nat := 0x3132564E

/-- V4L2 fourcc code for the semiplanar NV12 format (UV interleave). -/
def V4L2_PIX_FMT_NV12 : Nat := 0x3231564E

/-- Modelled from the spec: the device-state enum from the header
`V4L2Camera.h` (not among the sources).  The spec lists the states
Constructed, Initialized, Started and Stopped-but-initialized. -/
inductive EcdState where
  | ECDS_CONSTRUCTED
  | ECDS_INITIALIZED
  | ECDS_STARTED
  | ECDS_STOPPED
deriving DecidableEq, Repr

open EcdState

/-- The fields of class V4L2Camera that the embedded functions touch.
`mCurrentFrame` is the frame-buffer pointer, modelled as the id of a live
heap allocation (`none` = NULL); `mWorkerThread` records whether the
worker-thread object pointer is non-null. -/
structure Camera where
  mState : EcdState
  mFrameWidth : Nat
  mFrameHeight : Nat
  mPixelFormat : Nat
  mTotalPixels : Nat
  mFrameBufferSize : Nat
  mCurrentFrame : Option Nat
  mWorkerThread : Bool
  mTakingPicture : Bool
  mThreadRunning : Bool
deriving DecidableEq, Repr

/-- Modelled from the spec: `isInitialized()` lives in the missing header;
per the spec's state machine a device is initialized in every state after
Constructed. -/
def isInitialized (c : Camera) : Bool := c.mState ≠ ECDS_CONSTRUCTED

/-- Modelled from the spec: `isStarted()` lives in the missing header; a
device is started exactly in state Started. -/
def isStarted (c : Camera) : Bool := c.mState = ECDS_STARTED

/-- Heap of live `new[]` allocations: each live block is recorded as an
(id, byte-size) pair; `nextId` is the id the next allocation will get. -/
structure Heap where
  nextId : Nat
  live : List (Nat × Nat)
deriving DecidableEq, Repr

/-- Effect of `new uint8_t[size]` succeeding: a fresh block becomes live. -/
def Heap.alloc (h : Heap) (size : Nat) : Nat × Heap :=
  (h.nextId, ⟨h.nextId + 1, (h.nextId, size) :: h.live⟩)

/-- Effect of `delete[]` on the block with the given id. -/
def Heap.free (h : Heap) (i : Nat) : Heap :=
  ⟨h.nextId, h.live.filter (fun p => p.1 ≠ i)⟩

/-- Write one byte into a buffer. -/
def writeByte (buf : Nat → Nat) (i v : Nat) : Nat → Nat :=
  fun j => if j = i then v else buf j

/-- C `memcpy(dst, src, n)` on non-aliasing byte buffers: the first `n`
bytes come from `src`, the rest of `dst` is untouched. -/
def memcpy (dst src : Nat → Nat) (n : Nat) : Nat → Nat :=
  fun j => if j < n then src j else dst j

/-- The chroma loop of `NV12ToNV21` (V4L2Camera.cpp lines 144-148):
`for(i = 0; i < width*height/2; i += 2) { dst_uv[i] = src_uv[i+1];
dst_uv[i+1] = src_uv[i]; }` where `src_uv`/`dst_uv` are the buffers
offset by `base = width*height`.  `half` is `width*height/2`. -/
def nv12Loop (src : Nat → Nat) (base half : Nat) (i : Nat) (dst : Nat → Nat) :
    Nat → Nat :=
  if i < half then
    nv12Loop src base half (i + 2)
      (writeByte (writeByte dst (base + i) (src (base + i + 1)))
        (base + i + 1) (src (base + i)))
  else dst
termination_by half - i
decreasing_by omega

/-- Embedding of the static helper `NV12ToNV21` (V4L2Camera.cpp lines
137-149): copy the `width*height` luma bytes, then swap each adjacent
chroma byte pair. -/
def NV12ToNV21 (nv12 nv21 : Nat → Nat) (width height : Nat) : Nat → Nat :=
  nv12Loop nv12 (width * height) (width * height / 2) 0
    (memcpy nv21 nv12 (width * height))

/-- Embedding of `V4L2Camera::getCurrentPreviewFrame` (lines 151-197),
in its compiled non-RGBA32 form (the `#else` branch, lines 183-196, the
branch the spec describes).  `frame` gives the bytes stored in the
current-frame allocation; `buffer` is the caller's destination pointer.
Returns the status and the destination buffer after the call. -/
def getCurrentPreviewFrame (c : Camera) (frame : Nat → Nat)
    (buffer : Option (Nat → Nat)) : Nat × Option (Nat → Nat) :=
  if ¬ isStarted c then (EINVAL, buffer)
  else
    match c.mCurrentFrame, buffer with
    | none, _ => (EINVAL, buffer)
    | some _, none => (EINVAL, none)
    | some _, some dst =>
      if c.mPixelFormat = V4L2_PIX_FMT_NV21 then
        (OK, some (memcpy dst frame (c.mFrameWidth * c.mFrameHeight * 3 / 2)))
      else if c.mPixelFormat = V4L2_PIX_FMT_NV12 then
        (OK, some (NV12ToNV21 frame dst c.mFrameWidth c.mFrameHeight))
      else
        (OK, some dst)

/-- Embedding of `V4L2Camera::commonStartDevice` (lines 203-241).
`allocOk` models whether `new uint8_t[mFrameBufferSize]` yields a
non-null block.  Returns (status, camera, heap).  Note the source
updates mFrameBufferSize, mFrameWidth, mFrameHeight, mPixelFormat and
mTotalPixels before attempting the allocation. -/
def commonStartDevice (c : Camera) (h : Heap) (width height pix_fmt : Nat)
    (allocOk : Bool) : Nat × Camera × Heap :=
  if pix_fmt = V4L2_PIX_FMT_YVU420 ∨ pix_fmt = V4L2_PIX_FMT_YUV420 ∨
      pix_fmt = V4L2_PIX_FMT_NV21 ∨ pix_fmt = V4L2_PIX_FMT_NV12 then
    let size := width * height * 12 / 8
    let c1 : Camera :=
      { c with mFrameBufferSize := size, mFrameWidth := width,
               mFrameHeight := height, mPixelFormat := pix_fmt,
               mTotalPixels := width * height }
    if allocOk then
      let (id, h1) := h.alloc size
      (NO_ERROR, { c1 with mCurrentFrame := some id }, h1)
    else
      (ENOMEM, { c1 with mCurrentFrame := none }, h)
  else
    (EINVAL, c, h)

/-- Embedding of `V4L2Camera::commonStopDevice` (lines 243-253): zero the
cached frame geometry and format, and `delete[]` the frame buffer when it
is non-null. -/
def commonStopDevice (c : Camera) (h : Heap) : Camera × Heap :=
  let c1 : Camera :=
    { c with mFrameWidth := 0, mFrameHeight := 0, mTotalPixels := 0,
             mPixelFormat := 0 }
  match c.mCurrentFrame with
  | some i => ({ c1 with mCurrentFrame := none }, h.free i)
  | none => (c1, h)

/-- Embedding of `V4L2Camera::Initialize` (lines 66-85).  `allocOk`
models whether `new WorkerThread(this)` yields a non-null pointer.  The
third component records whether a worker-thread object allocation was
attempted at all. -/
def Initialize (c : Camera) (allocOk : Bool) : Nat × Camera × Bool :=
  if isInitialized c then
    (NO_ERROR, c, false)
  else if allocOk then
    (NO_ERROR, { c with mWorkerThread := true, mState := ECDS_INITIALIZED },
      true)
  else
    (ENOMEM, { c with mWorkerThread := false }, true)

/-- Outcome of one call to `stopDeliveringFrames`: the returned status,
the camera fields afterwards, whether the call blocked on the
take-photo-end condition variable, whether it blocked on the
thread-running condition variable, and whether `stopWorkerThread()` was
invoked. -/
structure StopOutcome where
  status : Nat
  cam : Camera
  waitedTakePhotoEnd : Bool
  waitedThreadRunning : Bool
  calledStopWorker : Bool
deriving DecidableEq, Repr

/-- Embedding of `V4L2Camera::stopDeliveringFrames` (lines 104-135).
The call first waits on `mCondTakePhotoEnd` when `mTakingPicture` holds,
then waits on `mCondThreadRunning` when `mThreadRunning` is false, and
only then tests `isStarted()`: a not-started device yields NO_ERROR with
no stop action.  In the started branch the pipe write and thread join
inside `stopWorkerThread` are OS effects outside this embedding, so that
branch's status is the input `stopWorkerRes`. -/
def stopDeliveringFrames (c : Camera) (stopWorkerRes : Nat) : StopOutcome :=
  let wTP := c.mTakingPicture
  let wTR := ! c.mThreadRunning
  if ¬ isStarted c then
    ⟨NO_ERROR, c, wTP, wTR, false⟩
  else
    ⟨stopWorkerRes, c, wTP, wTR, true⟩

/-- Modelled from the spec: the `ControlMessage` enum lives in the missing
header; its single enumerator `THREAD_STOP` is given code 0, while the
pipe can carry any byte value, hence messages are naturals. -/
def THREAD_STOP : Nat := 0

/-- Result values of `WorkerThread::Select`. -/
inductive SelectRes where
  | TIMEOUT
  | READY
  | EXIT_THREAD
  | ERROR
deriving DecidableEq, Repr

/-- Outcome of the underlying `select(2)` call inside
`WorkerThread::Select`: failure (negative return), timeout (zero), or a
positive return together with which of the two descriptors are ready. -/
inductive SelectOutcome where
  | failed
  | timedOut
  | ready (controlReady sourceReady : Bool)
deriving DecidableEq, Repr

/-- Outcome of the `read` of one control message: a complete message with
the given content, or a short read / read error. -/
inductive ReadOutcome where
  | ok (msg : Nat)
  | short
deriving DecidableEq, Repr

/-- Result of `WorkerThread::Select` together with how many control
messages were drained from the control descriptor. -/
structure SelectStep where
  res : SelectRes
  drained : Nat
deriving DecidableEq, Repr

/-- Embedding of `V4L2Camera::WorkerThread::Select` (lines 362-412): a
failed `select` yields ERROR, zero readiness yields TIMEOUT; otherwise
the control descriptor is tested first and, when ready, exactly one
message is read: a short read is ERROR, THREAD_STOP is EXIT_THREAD, any
other content is ERROR; only when the control descriptor is not ready is
READY returned for the source descriptor. -/
def WorkerSelect (out : SelectOutcome) (readRes : ReadOutcome) : SelectStep :=
  match out with
  | .failed => ⟨.ERROR, 0⟩
  | .timedOut => ⟨.TIMEOUT, 0⟩
  | .ready controlReady _sourceReady =>
    if controlReady then
      match readRes with
      | .short => ⟨.ERROR, 1⟩
      | .ok msg => if msg = THREAD_STOP then ⟨.EXIT_THREAD, 1⟩ else ⟨.ERROR, 1⟩
    else ⟨.READY, 0⟩

/-- Concrete started device holding a 2x2 planar YUV420 frame. -/
def cYU12 : Camera :=
  { mState := ECDS_STARTED, mFrameWidth := 2, mFrameHeight := 2,
    mPixelFormat := V4L2_PIX_FMT_YUV420, mTotalPixels := 4,
    mFrameBufferSize := 6, mCurrentFrame := some 0, mWorkerThread := true,
    mTakingPicture := false, mThreadRunning := true }

/-- Concrete started device holding a 2x2 semiplanar NV21 frame. -/
def cNV21 : Camera :=
  { cYU12 with mPixelFormat := V4L2_PIX_FMT_NV21 }

/-- Concrete started device holding a 2x2 semiplanar NV12 frame. -/
def cNV12 : Camera :=
  { cYU12 with mPixelFormat := V4L2_PIX_FMT_NV12 }

/-- Concrete initialized, never-started device: the worker object exists
but the worker loop has not signalled that it is running. -/
def cInitIdle : Camera :=
  { mState := ECDS_INITIALIZED, mFrameWidth := 0, mFrameHeight := 0,
    mPixelFormat := 0, mTotalPixels := 0, mFrameBufferSize := 0,
    mCurrentFrame := none, mWorkerThread := true, mTakingPicture := false,
    mThreadRunning := false }

/-- Concrete device that already set up a 10x10 NV21 frame buffer
(allocation id 0). -/
def cPrior : Camera :=
  { mState := ECDS_STARTED, mFrameWidth := 10, mFrameHeight := 10,
    mPixelFormat := V4L2_PIX_FMT_NV21, mTotalPixels := 100,
    mFrameBufferSize := 150, mCurrentFrame := some 0, mWorkerThread := true,
    mTakingPicture := false, mThreadRunning := true }

/-- Heap matching `cPrior`: exactly its 150-byte frame block is live. -/
def heapPrior : Heap := ⟨1, [(0, 150)]⟩

/-- Concrete started device holding a 2x2 NV21 frame in allocation 0. -/
def cHolding : Camera :=
  { mState := ECDS_STARTED, mFrameWidth := 2, mFrameHeight := 2,
    mPixelFormat := V4L2_PIX_FMT_NV21, mTotalPixels := 4,
    mFrameBufferSize := 6, mCurrentFrame := some 0, mWorkerThread := true,
    mTakingPicture := false, mThreadRunning := true }

/-- Heap matching `cHolding`: exactly its 6-byte frame block is live. -/
def heapHolding : Heap := ⟨1, [(0, 6)]⟩

/-- Heap with no live allocations. -/
def heapEmpty : Heap := ⟨0, []⟩

/-! Characterization of the chroma-swap loop. -/

/-- Bytes below the loop's current write position are never touched. -/
lemma nv12Loop_low (src : Nat → Nat) (base half : Nat) :
    ∀ i dst j, j < base + i → nv12Loop src base half i dst j = dst j := by
  have H : ∀ n i dst j, half - i ≤ n → j < base + i →
      nv12Loop src base half i dst j = dst j := by
    intro n
    induction n with
    | zero =>
      intro i dst j hn hj
      rw [nv12Loop]
      have hi : ¬ i < half := by omega
      simp [hi]
    | succ n ih =>
      intro i dst j hn hj
      rw [nv12Loop]
      by_cases hi : i < half
      · simp only [if_pos hi]
        rw [ih (i + 2) _ j (by omega) (by omega)]
        simp only [writeByte]
        rw [if_neg (by omega), if_neg (by omega)]
      · simp [hi]
  intro i dst j hj
  exact H (half - i) i dst j le_rfl hj

/-- With an even iteration bound and an even starting index, bytes at or
beyond `base + half` are never touched. -/
lemma nv12Loop_high (src : Nat → Nat) (base half : Nat) (h2 : 2 ∣ half) :
    ∀ i dst j, 2 ∣ i → base + half ≤ j →
      nv12Loop src base half i dst j = dst j := by
  have H : ∀ n i dst j, half - i ≤ n → 2 ∣ i → base + half ≤ j →
      nv12Loop src base half i dst j = dst j := by
    intro n
    induction n with
    | zero =>
      intro i dst j hn _ hj
      rw [nv12Loop]
      have hi : ¬ i < half := by omega
      simp [hi]
    | succ n ih =>
      intro i dst j hn hie hj
      rw [nv12Loop]
      by_cases hi : i < half
      · simp only [if_pos hi]
        have hi1 : i + 1 < half := by omega
        rw [ih (i + 2) _ j (by omega) (by omega) hj]
        simp only [writeByte]
        rw [if_neg (by omega), if_neg (by omega)]
      · simp [hi]
  intro i dst j hie hj
  exact H (half - i) i dst j le_rfl hie hj

/-- Inside the chroma plane the loop stores, at offset `k`, the source
byte at the offset with the last bit flipped. -/
lemma nv12Loop_swap (src : Nat → Nat) (base half : Nat) (h2 : 2 ∣ half) :
    ∀ i dst k, 2 ∣ i → i ≤ k → k < half →
      nv12Loop src base half i dst (base + k) =
        src (base + (if k % 2 = 0 then k + 1 else k - 1)) := by
  have H : ∀ n i dst k, half - i ≤ n → 2 ∣ i → i ≤ k → k < half →
      nv12Loop src base half i dst (base + k) =
        src (base + (if k % 2 = 0 then k + 1 else k - 1)) := by
    intro n
    induction n with
    | zero =>
      intro i dst k hn _ hik hk
      omega
    | succ n ih =>
      intro i dst k hn hie hik hk
      have hi : i < half := by omega
      rw [nv12Loop]
      simp only [if_pos hi]
      by_cases hcase : k < i + 2
      · rw [nv12Loop_low src base half (i + 2) _ (base + k) (by omega)]
        simp only [writeByte]
        rcases (by omega : k = i ∨ k = i + 1) with hki | hki
        · subst hki
          rw [if_neg (by omega), if_pos rfl, if_pos (by omega)]
          congr 1
        · subst hki
          rw [if_pos (by omega : base + (i + 1) = base + i + 1),
            if_neg (by omega : ¬ (i + 1) % 2 = 0)]
          congr 1
      · rw [ih (i + 2) _ k (by omega) (by omega) (by omega) hk]
  intro i dst k hie hik hk
  exact H (half - i) i dst k le_rfl hie hik hk

/-- Luma bytes are copied unchanged by NV12ToNV21. -/
lemma NV12ToNV21_luma (nv12 nv21 : Nat → Nat) (w h : Nat) (j : Nat)
    (hj : j < w * h) : NV12ToNV21 nv12 nv21 w h j = nv12 j := by
  unfold NV12ToNV21
  rw [nv12Loop_low nv12 (w * h) (w * h / 2) 0 _ j (by omega)]
  simp [memcpy, hj]

/-- Each chroma byte of the NV12ToNV21 output is the source byte at the
pair-swapped chroma offset (even chroma-plane size). -/
lemma NV12ToNV21_chroma (nv12 nv21 : Nat → Nat) (w h : Nat)
    (h2 : 2 ∣ (w * h / 2)) (k : Nat) (hk : k < w * h / 2) :
    NV12ToNV21 nv12 nv21 w h (w * h + k) =
      nv12 (w * h + (if k % 2 = 0 then k + 1 else k - 1)) := by
  unfold NV12ToNV21
  exact nv12Loop_swap nv12 (w * h) (w * h / 2) h2 0 _ k (by omega) (by omega) hk

/-- Bytes beyond the frame are untouched by NV12ToNV21 (even chroma-plane
size). -/
lemma NV12ToNV21_beyond (nv12 nv21 : Nat → Nat) (w h : Nat)
    (h2 : 2 ∣ (w * h / 2)) (j : Nat) (hj : w * h + w * h / 2 ≤ j) :
    NV12ToNV21 nv12 nv21 w h j = nv21 j := by
  unfold NV12ToNV21
  rw [nv12Loop_high nv12 (w * h) (w * h / 2) h2 0 _ j (by omega) hj]
  simp only [memcpy]
  rw [if_neg (by omega)]

/-- Applying NV12ToNV21 twice restores every byte of the frame (even
chroma-plane size). -/
lemma NV12ToNV21_involution (f d1 d2 : Nat → Nat) (w h : Nat)
    (h2 : 2 ∣ (w * h / 2)) (j : Nat) (hj : j < w * h + w * h / 2) :
    NV12ToNV21 (NV12ToNV21 f d1 w h) d2 w h j = f j := by
  by_cases hl : j < w * h
  · rw [NV12ToNV21_luma _ _ _ _ _ hl, NV12ToNV21_luma _ _ _ _ _ hl]
  · have hk : j - w * h < w * h / 2 := by omega
    have hj' : j = w * h + (j - w * h) := by omega
    rw [hj', NV12ToNV21_chroma _ _ _ _ h2 _ hk]
    set k := j - w * h with hkdef
    by_cases hke : k % 2 = 0
    · rw [if_pos hke]
      have hk1 : k + 1 < w * h / 2 := by omega
      rw [NV12ToNV21_chroma _ _ _ _ h2 _ hk1]
      rw [if_neg (by omega)]
      congr 1
    · rw [if_neg hke]
      have hk1 : k - 1 < w * h / 2 := by omega
      rw [NV12ToNV21_chroma _ _ _ _ h2 _ hk1]
      rw [if_pos (by omega)]
      congr 1
      omega

/-- For even frame dimensions the chroma plane has an even byte count. -/
lemma chromaHalf_even (w h : Nat) (hw : 2 ∣ w) (hh : 2 ∣ h) :
    2 ∣ (w * h / 2) := by
  obtain ⟨a, ha⟩ := hw
  obtain ⟨b, hb⟩ := hh
  subst ha
  subst hb
  have h1 : 2 * a * (2 * b) = 2 * (2 * (a * b)) := by ring
  rw [h1, Nat.mul_div_cancel_left _ (by norm_num : 0 < 2)]
  exact ⟨a * b, rfl⟩

/-- For an even width the 12-bits-per-pixel byte count splits into the
luma plane plus the chroma plane. -/
lemma frameSize_split (w h : Nat) (hw : 2 ∣ w) :
    w * h * 3 / 2 = w * h + w * h / 2 := by
  obtain ⟨a, ha⟩ := hw
  subst ha
  have h1 : 2 * a * h * 3 = 2 * (a * h * 3) := by ring
  have h2 : 2 * a * h = 2 * (a * h) := by ring
  rw [h1, h2, Nat.mul_div_cancel_left _ (by norm_num : 0 < 2),
    Nat.mul_div_cancel_left _ (by norm_num : 0 < 2)]
  ring

/-- C2: reading out a stored NV12 frame via NV12ToNV21 copies the `w*h`
luma bytes unchanged and swaps every adjacent even/odd byte pair of the
`w*h/2`-byte chroma plane, applying the conversion twice is the identity
on the whole frame, and reading out a stored NV21 frame is a
byte-identical copy of the whole `w*h*3/2`-byte buffer.  The dimensions
of a 4:2:0 frame are even. -/
theorem spec_C2_nv12_readout (w h : Nat) (hw : 2 ∣ w) (hh : 2 ∣ h) :
    (∀ (f d : Nat → Nat) (j : Nat), j < w * h → NV12ToNV21 f d w h j = f j) ∧
    (∀ (f d : Nat → Nat) (k : Nat), k < w * h / 2 →
      NV12ToNV21 f d w h (w * h + k) =
        f (w * h + (if k % 2 = 0 then k + 1 else k - 1))) ∧
    (∀ (f d1 d2 : Nat → Nat) (j : Nat), j < w * h * 3 / 2 →
      NV12ToNV21 (NV12ToNV21 f d1 w h) d2 w h j = f j) ∧
    (∀ (c : Camera) (f d : Nat → Nat),
      isStarted c = true → c.mCurrentFrame ≠ none →
      c.mPixelFormat = V4L2_PIX_FMT_NV21 →
      c.mFrameWidth = w → c.mFrameHeight = h →
      getCurrentPreviewFrame c f (some d) =
        (OK, some (memcpy d f (w * h * 3 / 2))) ∧
      ∀ j : Nat, j < w * h * 3 / 2 → memcpy d f (w * h * 3 / 2) j = f j) := by
  have h2 : 2 ∣ (w * h / 2) := chromaHalf_even w h hw hh
  have hsz : w * h * 3 / 2 = w * h + w * h / 2 := frameSize_split w h hw
  refine ⟨?_, ?_, ?_, ?_⟩
  · intro f d j hj
    exact NV12ToNV21_luma f d w h j hj
  · intro f d k hk
    exact NV12ToNV21_chroma f d w h h2 k hk
  · intro f d1 d2 j hj
    exact NV12ToNV21_involution f d1 d2 w h h2 j (by omega)
  · intro c f d hs hcur hfmt hwid hht
    obtain ⟨i, hi⟩ := Option.ne_none_iff_exists'.mp hcur
    constructor
    · simp [getCurrentPreviewFrame, hs, hi, hfmt, hwid, hht]
    · intro j hj
      simp [memcpy, hj]

/-- C2 witness: on a 2x2 frame whose byte at index `j` is `j`, the first
chroma byte of the NV12 readout is the source byte at the swapped offset. -/
theorem spec_C2_nv12_readout_witness :
    NV12ToNV21 (fun j => j) (fun _ => 0) 2 2 (2 * 2 + 0) =
      (fun j : Nat => j) (2 * 2 + (if 0 % 2 = 0 then 0 + 1 else 0 - 1)) :=
  (spec_C2_nv12_readout 2 2 (by decide) (by decide)).2.1
    (fun j => j) (fun _ => 0) 0 (by decide)

/-- C1 counterexample: a started device storing a 2x2 planar YUV420 frame
whose six bytes are all 7.  getCurrentPreviewFrame succeeds, yet the
destination keeps exactly its initial contents (all 0, resp. all 1): no
byte of it is derived from the frame, so the destination is not filled
with `width*height*3/2` frame-derived bytes as the claim requires for
every supported format. -/
theorem spec_C1_planar_counterexample :
    getCurrentPreviewFrame cYU12 (fun _ => 7) (some (fun _ => 0)) =
      (OK, some (fun _ => 0)) ∧
    getCurrentPreviewFrame cYU12 (fun _ => 7) (some (fun _ => 1)) =
      (OK, some (fun _ => 1)) := by
  constructor <;> simp [getCurrentPreviewFrame, cYU12, isStarted,
    V4L2_PIX_FMT_YUV420, V4L2_PIX_FMT_NV21, V4L2_PIX_FMT_NV12]

/-- C1 amended: on a started device with a non-null frame and non-null
destination, getCurrentPreviewFrame returns success for every supported
stored format, and it fills the destination with exactly
`width*height*3/2` frame-derived bytes for the two semiplanar formats
NV21 (byte-for-byte copy) and NV12 (luma copy plus chroma pair swap);
for the planar formats YUV420 and YVU420 it returns success but leaves
the destination entirely unchanged. -/
theorem spec_C1_preview_readout (c : Camera) (w h : Nat)
    (hw : 2 ∣ w) (hh : 2 ∣ h)
    (hs : isStarted c = true) (hcur : c.mCurrentFrame ≠ none)
    (hwid : c.mFrameWidth = w) (hht : c.mFrameHeight = h)
    (frame d : Nat → Nat) :
    (c.mPixelFormat = V4L2_PIX_FMT_NV21 →
      getCurrentPreviewFrame c frame (some d) =
        (OK, some (memcpy d frame (w * h * 3 / 2))) ∧
      (∀ j : Nat, j < w * h * 3 / 2 → memcpy d frame (w * h * 3 / 2) j = frame j) ∧
      (∀ j : Nat, w * h * 3 / 2 ≤ j → memcpy d frame (w * h * 3 / 2) j = d j)) ∧
    (c.mPixelFormat = V4L2_PIX_FMT_NV12 →
      getCurrentPreviewFrame c frame (some d) =
        (OK, some (NV12ToNV21 frame d w h)) ∧
      (∀ j : Nat, j < w * h * 3 / 2 → NV12ToNV21 frame d w h j =
        frame (if j < w * h then j
          else if (j - w * h) % 2 = 0 then j + 1 else j - 1)) ∧
      (∀ j : Nat, w * h * 3 / 2 ≤ j → NV12ToNV21 frame d w h j = d j)) ∧
    ((c.mPixelFormat = V4L2_PIX_FMT_YUV420 ∨
      c.mPixelFormat = V4L2_PIX_FMT_YVU420) →
      getCurrentPreviewFrame c frame (some d) = (OK, some d)) := by
  have h2 : 2 ∣ (w * h / 2) := chromaHalf_even w h hw hh
  have hsz : w * h * 3 / 2 = w * h + w * h / 2 := frameSize_split w h hw
  obtain ⟨i, hi⟩ := Option.ne_none_iff_exists'.mp hcur
  refine ⟨?_, ?_, ?_⟩
  · intro hfmt
    refine ⟨?_, ?_, ?_⟩
    · simp [getCurrentPreviewFrame, hs, hi, hfmt, hwid, hht]
    · intro j hj
      simp [memcpy, hj]
    · intro j hj
      simp only [memcpy]
      rw [if_neg (by omega)]
  · intro hfmt
    have hne : V4L2_PIX_FMT_NV12 ≠ V4L2_PIX_FMT_NV21 := by decide
    refine ⟨?_, ?_, ?_⟩
    · simp [getCurrentPreviewFrame, hs, hi, hfmt, hwid, hht, hne]
    · intro j hj
      by_cases hl : j < w * h
      · rw [NV12ToNV21_luma frame d w h j hl, if_pos hl]
      · have hk : j - w * h < w * h / 2 := by omega
        have hj2 : j = w * h + (j - w * h) := by omega
        rw [if_neg hl]
        rw [hj2, NV12ToNV21_chroma frame d w h h2 _ hk]
        rw [Nat.add_sub_cancel_left]
        by_cases hke : (j - w * h) % 2 = 0
        · rw [if_pos hke, if_pos hke]
          congr 1
        · rw [if_neg hke, if_neg hke]
          congr 1
          omega
    · intro j hj
      exact NV12ToNV21_beyond frame d w h h2 j (by omega)
  · intro hfmt
    rcases hfmt with hfmt | hfmt <;>
      simp [getCurrentPreviewFrame, hs, hi, hfmt, V4L2_PIX_FMT_YUV420,
        V4L2_PIX_FMT_YVU420, V4L2_PIX_FMT_NV21, V4L2_PIX_FMT_NV12]

/-- C1 witness: the amended theorem applied to the concrete started 2x2
NV21 device: the readout is the byte-for-byte copy of the six-byte
frame. -/
theorem spec_C1_preview_readout_witness :
    getCurrentPreviewFrame cNV21 (fun _ => 5) (some (fun _ => 0)) =
      (OK, some (memcpy (fun _ => 0) (fun _ => 5) (2 * 2 * 3 / 2))) :=
  ((spec_C1_preview_readout cNV21 2 2 (by decide) (by decide) (by decide)
    (by decide) rfl rfl (fun _ => 5) (fun _ => 0)).1 rfl).1

/-- C3 counterexample: on the concrete initialized, never-started device
the call does return NO_ERROR with no stop action, but it first blocks on
the thread-running condition variable (`waitedThreadRunning = true`,
V4L2Camera.cpp lines 118-125), refuting the claim's "not a blocked
call". -/
theorem spec_C3_blocks_counterexample :
    (stopDeliveringFrames cInitIdle NO_ERROR).status = NO_ERROR ∧
    (stopDeliveringFrames cInitIdle NO_ERROR).calledStopWorker = false ∧
    (stopDeliveringFrames cInitIdle NO_ERROR).cam = cInitIdle ∧
    (stopDeliveringFrames cInitIdle NO_ERROR).waitedThreadRunning = true := by
  decide

/-- C3 amended: stopDeliveringFrames on a device that is not Started
returns NO_ERROR without invoking stopWorkerThread and without changing
any field, but it first blocks on the take-photo-end condition variable
exactly when a picture is being taken and on the thread-running condition
variable exactly when the worker has not yet signalled it is running; in
particular a call before any start blocks until that flag is signalled. -/
theorem spec_C3_stop_not_started (c : Camera) (r : Nat)
    (hns : isStarted c = false) :
    (stopDeliveringFrames c r).status = NO_ERROR ∧
    (stopDeliveringFrames c r).cam = c ∧
    (stopDeliveringFrames c r).calledStopWorker = false ∧
    (stopDeliveringFrames c r).waitedTakePhotoEnd = c.mTakingPicture ∧
    (stopDeliveringFrames c r).waitedThreadRunning = ! c.mThreadRunning := by
  simp [stopDeliveringFrames, hns]

/-- C3 witness: the amended theorem at the concrete initialized device. -/
theorem spec_C3_stop_not_started_witness :
    isStarted cInitIdle = false ∧
    ((stopDeliveringFrames cInitIdle 0).status = NO_ERROR ∧
     (stopDeliveringFrames cInitIdle 0).cam = cInitIdle ∧
     (stopDeliveringFrames cInitIdle 0).calledStopWorker = false ∧
     (stopDeliveringFrames cInitIdle 0).waitedTakePhotoEnd =
       cInitIdle.mTakingPicture ∧
     (stopDeliveringFrames cInitIdle 0).waitedThreadRunning =
       ! cInitIdle.mThreadRunning) :=
  ⟨by decide, spec_C3_stop_not_started cInitIdle 0 (by decide)⟩

/-- C4: commonStartDevice with a pixel format outside the supported set
returns EINVAL and leaves the whole device record and the heap
unchanged, in every device state. -/
theorem spec_C4_invalid_format (c : Camera) (hp : Heap) (w ht fmt : Nat)
    (allocOk : Bool)
    (hfmt : fmt ≠ V4L2_PIX_FMT_YVU420 ∧ fmt ≠ V4L2_PIX_FMT_YUV420 ∧
      fmt ≠ V4L2_PIX_FMT_NV21 ∧ fmt ≠ V4L2_PIX_FMT_NV12) :
    commonStartDevice c hp w ht fmt allocOk = (EINVAL, c, hp) := by
  obtain ⟨h1, h2, h3, h4⟩ := hfmt
  simp [commonStartDevice, h1, h2, h3, h4]

/-- C4 witness: format tag 0 on the concrete initialized device. -/
theorem spec_C4_invalid_format_witness :
    commonStartDevice cInitIdle heapPrior 640 480 0 true =
      (EINVAL, cInitIdle, heapPrior) :=
  spec_C4_invalid_format cInitIdle heapPrior 640 480 0 true (by decide)

/-- C5 counterexample: the device previously held a 10x10 NV21 setup with
a live frame buffer; a failing 20x20 NV21 commonStartDevice returns
ENOMEM, yet mFrameWidth is now 20 (it was 10) and mCurrentFrame is null
(it was allocation 0): the fields do not hold their prior values. -/
theorem spec_C5_enomem_counterexample :
    (commonStartDevice cPrior heapPrior 20 20 V4L2_PIX_FMT_NV21 false).1 =
      ENOMEM ∧
    (commonStartDevice cPrior heapPrior 20 20
      V4L2_PIX_FMT_NV21 false).2.1.mFrameWidth = 20 ∧
    cPrior.mFrameWidth = 10 ∧
    (commonStartDevice cPrior heapPrior 20 20
      V4L2_PIX_FMT_NV21 false).2.1.mCurrentFrame = none ∧
    cPrior.mCurrentFrame = some 0 := by
  decide

/-- C5 amended: when allocation fails on a supported format,
commonStartDevice returns ENOMEM, but mFrameBufferSize, mFrameWidth,
mFrameHeight, mPixelFormat and mTotalPixels already hold the newly
requested values and mCurrentFrame is null; only mState, the remaining
fields and the heap are unchanged. -/
theorem spec_C5_enomem_effect (c : Camera) (hp : Heap) (w ht fmt : Nat)
    (hfmt : fmt = V4L2_PIX_FMT_YVU420 ∨ fmt = V4L2_PIX_FMT_YUV420 ∨
      fmt = V4L2_PIX_FMT_NV21 ∨ fmt = V4L2_PIX_FMT_NV12) :
    commonStartDevice c hp w ht fmt false =
      (ENOMEM,
        { c with mFrameBufferSize := w * ht * 12 / 8, mFrameWidth := w,
                 mFrameHeight := ht, mPixelFormat := fmt,
                 mTotalPixels := w * ht, mCurrentFrame := none }, hp) := by
  unfold commonStartDevice
  rw [if_pos hfmt]
  simp

/-- C5 witness: the amended theorem at a concrete failing 4x2 NV12
start. -/
theorem spec_C5_enomem_effect_witness :
    commonStartDevice cPrior heapPrior 4 2 V4L2_PIX_FMT_NV12 false =
      (ENOMEM,
        { cPrior with mFrameBufferSize := 4 * 2 * 12 / 8, mFrameWidth := 4,
                      mFrameHeight := 2, mPixelFormat := V4L2_PIX_FMT_NV12,
                      mTotalPixels := 4 * 2, mCurrentFrame := none },
        heapPrior) :=
  spec_C5_enomem_effect cPrior heapPrior 4 2 V4L2_PIX_FMT_NV12 (by decide)

/-- C6: a successful commonStartDevice on any supported format sets
mFrameBufferSize to exactly `width*height*12/8`, points mCurrentFrame at
the fresh allocation, and that allocation is live with exactly that byte
size. -/
theorem spec_C6_buffer_size (c : Camera) (hp : Heap) (w ht fmt : Nat)
    (hfmt : fmt = V4L2_PIX_FMT_YVU420 ∨ fmt = V4L2_PIX_FMT_YUV420 ∨
      fmt = V4L2_PIX_FMT_NV21 ∨ fmt = V4L2_PIX_FMT_NV12) :
    (commonStartDevice c hp w ht fmt true).1 = NO_ERROR ∧
    (commonStartDevice c hp w ht fmt true).2.1.mFrameBufferSize =
      w * ht * 12 / 8 ∧
    (commonStartDevice c hp w ht fmt true).2.1.mCurrentFrame =
      some hp.nextId ∧
    (hp.nextId, w * ht * 12 / 8) ∈
      (commonStartDevice c hp w ht fmt true).2.2.live := by
  unfold commonStartDevice
  rw [if_pos hfmt]
  simp [Heap.alloc]

/-- C6 witness: the 640x480 YUV420 start of the spec scenario allocates a
460800-byte buffer. -/
theorem spec_C6_buffer_size_witness :
    (commonStartDevice cInitIdle heapEmpty 640 480
      V4L2_PIX_FMT_YUV420 true).1 = NO_ERROR ∧
    (commonStartDevice cInitIdle heapEmpty 640 480
      V4L2_PIX_FMT_YUV420 true).2.1.mFrameBufferSize = 640 * 480 * 12 / 8 ∧
    (commonStartDevice cInitIdle heapEmpty 640 480
      V4L2_PIX_FMT_YUV420 true).2.1.mCurrentFrame = some heapEmpty.nextId ∧
    (heapEmpty.nextId, 640 * 480 * 12 / 8) ∈
      (commonStartDevice cInitIdle heapEmpty 640 480
        V4L2_PIX_FMT_YUV420 true).2.2.live :=
  spec_C6_buffer_size cInitIdle heapEmpty 640 480 V4L2_PIX_FMT_YUV420
    (by decide)

/-- C7 counterexample: the device holds live allocation 0 as its frame
buffer; a successful 2x2 NV21 commonStartDevice allocates block 1 while
block 0 is still live — nothing was freed first, and the controller now
holds two live frame-buffer allocations. -/
theorem spec_C7_leak_counterexample :
    cHolding.mCurrentFrame = some 0 ∧
    (commonStartDevice cHolding heapHolding 2 2
      V4L2_PIX_FMT_NV21 true).2.2.live = [(1, 6), (0, 6)] ∧
    (commonStartDevice cHolding heapHolding 2 2
      V4L2_PIX_FMT_NV21 true).2.1.mCurrentFrame = some 1 := by
  decide

/-- C7 amended: the old frame buffer is freed by commonStopDevice, not by
commonStartDevice: stopping a device whose buffer is the only live
allocation frees it and nulls the pointer, and a subsequent successful
commonStartDevice then leaves exactly the one new allocation live.
commonStartDevice itself frees nothing, so only the stop-then-start
order (the one the state machine permits, since reallocation happens
while capture is stopped) avoids holding two live buffers. -/
theorem spec_C7_stop_then_start (c : Camera) (hp : Heap) (i w ht fmt : Nat)
    (hcur : c.mCurrentFrame = some i)
    (hone : ∀ p ∈ hp.live, p.1 = i)
    (hfmt : fmt = V4L2_PIX_FMT_YVU420 ∨ fmt = V4L2_PIX_FMT_YUV420 ∨
      fmt = V4L2_PIX_FMT_NV21 ∨ fmt = V4L2_PIX_FMT_NV12) :
    commonStopDevice c hp =
      ({ c with mFrameWidth := 0, mFrameHeight := 0, mTotalPixels := 0,
                mPixelFormat := 0, mCurrentFrame := none },
        { nextId := hp.nextId, live := [] }) ∧
    (commonStartDevice
      { c with mFrameWidth := 0, mFrameHeight := 0, mTotalPixels := 0,
               mPixelFormat := 0, mCurrentFrame := none }
      { nextId := hp.nextId, live := [] } w ht fmt true).2.2.live =
      [(hp.nextId, w * ht * 12 / 8)] := by
  have hfil : hp.live.filter (fun p => p.1 ≠ i) = [] := by
    rw [List.filter_eq_nil_iff]
    intro p hmem
    simp [hone p hmem]
  constructor
  · simp [commonStopDevice, hcur, Heap.free, hfil]
    intro a b hmem
    exact hone (a, b) hmem
  · unfold commonStartDevice
    rw [if_pos hfmt]
    simp [Heap.alloc]

/-- C7 witness: the amended theorem at the concrete device holding
allocation 0, stopped and restarted at 2x2 NV21. -/
theorem spec_C7_stop_then_start_witness :
    commonStopDevice cHolding heapHolding =
      ({ cHolding with mFrameWidth := 0, mFrameHeight := 0,
                       mTotalPixels := 0, mPixelFormat := 0,
                       mCurrentFrame := none },
        { nextId := heapHolding.nextId, live := [] }) ∧
    (commonStartDevice
      { cHolding with mFrameWidth := 0, mFrameHeight := 0,
                      mTotalPixels := 0, mPixelFormat := 0,
                      mCurrentFrame := none }
      { nextId := heapHolding.nextId, live := [] } 2 2
      V4L2_PIX_FMT_NV21 true).2.2.live =
      [(heapHolding.nextId, 2 * 2 * 12 / 8)] :=
  spec_C7_stop_then_start cHolding heapHolding 0 2 2 V4L2_PIX_FMT_NV21
    rfl (by decide) (by decide)

/-- C8: Initialize on an already-initialized device returns NO_ERROR,
changes no field (in particular mState keeps its value) and attempts no
worker-thread allocation. -/
theorem spec_C8_initialize_idempotent (c : Camera) (b : Bool)
    (hinit : isInitialized c = true) :
    Initialize c b = (NO_ERROR, c, false) := by
  simp [Initialize, hinit]

/-- C8 witness: a second Initialize on the concrete initialized device. -/
theorem spec_C8_initialize_idempotent_witness :
    Initialize cInitIdle true = (NO_ERROR, cInitIdle, false) :=
  spec_C8_initialize_idempotent cInitIdle true (by decide)

/-- C9: whenever the control descriptor is ready — in particular when the
source descriptor is simultaneously ready — Select drains exactly one
control message and never returns READY; a THREAD_STOP message yields
EXIT_THREAD and any other read outcome yields ERROR. -/
theorem spec_C9_select_control_first (s : Bool) (r : ReadOutcome) :
    (WorkerSelect (SelectOutcome.ready true s) r).drained = 1 ∧
    (WorkerSelect (SelectOutcome.ready true s) r).res ≠ SelectRes.READY ∧
    (r = ReadOutcome.ok THREAD_STOP →
      (WorkerSelect (SelectOutcome.ready true s) r).res =
        SelectRes.EXIT_THREAD) ∧
    (r ≠ ReadOutcome.ok THREAD_STOP →
      (WorkerSelect (SelectOutcome.ready true s) r).res = SelectRes.ERROR) := by
  cases r with
  | short =>
    refine ⟨by simp [WorkerSelect], by simp [WorkerSelect], ?_, ?_⟩
    · intro hmsg
      simp at hmsg
    · intro _
      simp [WorkerSelect]
  | ok msg =>
    by_cases hm : msg = THREAD_STOP
    · subst hm
      refine ⟨by simp [WorkerSelect], by simp [WorkerSelect],
        fun _ => by simp [WorkerSelect], ?_⟩
      intro hmsg
      exact absurd rfl hmsg
    · refine ⟨by simp [WorkerSelect, hm], by simp [WorkerSelect, hm], ?_, ?_⟩
      · intro hmsg
        injection hmsg with hmsg'
        exact absurd hmsg' hm
      · intro _
        simp [WorkerSelect, hm]

/-- C9 witness: both descriptors ready and a THREAD_STOP message: Select
returns EXIT_THREAD. -/
theorem spec_C9_select_control_first_witness :
    (WorkerSelect (SelectOutcome.ready true true)
      (ReadOutcome.ok THREAD_STOP)).res = SelectRes.EXIT_THREAD :=
  (spec_C9_select_control_first true (ReadOutcome.ok THREAD_STOP)).2.2.1 rfl

/-- C10: on a started device with non-null frame and destination, when
the stored format is one of the planar formats YUV420 or YVU420,
getCurrentPreviewFrame returns success and the destination buffer is
returned entirely unchanged — nothing is written into it. -/
theorem spec_C10_planar_untouched (c : Camera) (frame d : Nat → Nat)
    (hs : isStarted c = true) (hcur : c.mCurrentFrame ≠ none)
    (hfmt : c.mPixelFormat = V4L2_PIX_FMT_YUV420 ∨
      c.mPixelFormat = V4L2_PIX_FMT_YVU420) :
    getCurrentPreviewFrame c frame (some d) = (OK, some d) := by
  obtain ⟨i, hi⟩ := Option.ne_none_iff_exists'.mp hcur
  rcases hfmt with hfmt | hfmt <;>
    simp [getCurrentPreviewFrame, hs, hi, hfmt, V4L2_PIX_FMT_YUV420,
      V4L2_PIX_FMT_YVU420, V4L2_PIX_FMT_NV21, V4L2_PIX_FMT_NV12]

/-- C10 witness: the concrete started YUV420 device with a frame of 9s
leaves a destination of 3s untouched while reporting success. -/
theorem spec_C10_planar_untouched_witness :
    getCurrentPreviewFrame cYU12 (fun _ => 9) (some (fun _ => 3)) =
      (OK, some (fun _ => 3)) :=
  spec_C10_planar_untouched cYU12 (fun _ => 9) (fun _ => 3) (by decide)
    (by decide) (Or.inl rfl)

end V4L2
